import Mathlib

/-
Verification of the WeatherApp data-aggregation layer (`weather_service.py`)
against its natural-language specification.

Modelling conventions (shallow embedding):
* Python `datetime` values are integer seconds since the epoch (`Int`);
  `datetime.date()` is floor division by 86400 and `datetime.hour` is
  `t % 86400 / 3600`.  Both match CPython for naive datetimes.
* Python floats are modelled as rationals (`ℚ`); `None`-able floats as
  `Option ℚ`.
* Python dictionaries produced by this code have a fixed key set, so they are
  modelled as structures.  Raw JSON payloads (whose shape is unknown) are
  modelled by the inductive type `Jv` below.
* Code that can raise is modelled in `Except PyError`.
-/

/-- Python exception classes that the modelled code can raise.
`incompleteResponse` stands for the `WeatherServiceError("Respuesta
incompleta de la API de clima.")` raised by the `except KeyError` handler of
`get_current_weather`. -/
inductive PyError where
  | attrError
  | typeError
  | keyError
  | indexError
  | valueError
  | incompleteResponse
deriving DecidableEq

/-- Seconds per calendar day. -/
def secondsPerDay : Int := 86400

/-- Calendar date of a timestamp (`datetime.date()`), as an epoch day number.
Integer division on `Int` is floor division for a positive divisor, matching
the date of a naive Python datetime built from an epoch-second count. -/
def dateOf (t : Int) : Int := t / secondsPerDay

/-- Hour of day of a timestamp (`datetime.hour`), in `0..23`. -/
def hourOf (t : Int) : Int := t % secondsPerDay / 3600

/-- One parsed 3-hour forecast sample, as produced by `_fetch_forecast`:
a dict with keys `datetime`, `temp`, `description`, `icon_url`, `pop`.
`temp` and `pop` can be `None` (a raw item may carry an explicit JSON null). -/
structure ForecastEntry where
  datetime : Int
  temp : Option ℚ
  description : String
  icon_url : String
  pop : Option ℚ
deriving DecidableEq

/-- One aggregated daily record, as built by `_aggregate_daily`:
a dict with keys `date`, `temp`, `description`, `icon_url`, `pop`.
Note the `date` key holds `target["datetime"]`, a full datetime. -/
structure DailyEntry where
  date : Int
  temp : Option ℚ
  description : String
  icon_url : String
  pop : Option ℚ
deriving DecidableEq

/-- Python `str.capitalize()`: the first character upper-cased and every
remaining character lower-cased.  (CPython title-cases the first character
and lower-cases the rest; on ASCII, title-case and upper-case coincide.) -/
def pyCapitalize (s : String) : String :=
  match s.data with
  | [] => ""
  | c :: cs => String.mk (c.toUpper :: cs.map Char.toLower)

/-- One step of `defaultdict(list)` grouping: append `e` to the group keyed
`k`, keeping first-appearance key order (Python dicts preserve insertion
order), or start a new group at the end. -/
def insertGrouped (acc : List (Int × List ForecastEntry)) (k : Int) (e : ForecastEntry) :
    List (Int × List ForecastEntry) :=
  match acc with
  | [] => [(k, [e])]
  | (kk, es) :: rest =>
    if kk = k then (kk, es ++ [e]) :: rest
    else (kk, es) :: insertGrouped rest k e

/-- One iteration of the grouping loop of `_aggregate_daily`:
`grouped[entry["datetime"].date()].append(entry)`. -/
def groupStep (acc : List (Int × List ForecastEntry)) (e : ForecastEntry) :
    List (Int × List ForecastEntry) :=
  insertGrouped acc (dateOf e.datetime) e

/-- The grouping loop of `_aggregate_daily` over the whole forecast list. -/
def groupByDate (forecast : List ForecastEntry) : List (Int × List ForecastEntry) :=
  forecast.foldl groupStep []

/-- The noon test of `_aggregate_daily`: `e["datetime"].hour == 12`. -/
def is_noon (e : ForecastEntry) : Bool := hourOf e.datetime == 12

/-- Representative selection of `_aggregate_daily`: the first entry of the
group (in its stored order) whose hour is 12, else the entry at index
`len(entries) // 2`.  The group lists built by `groupByDate` are never empty,
so the `none` case of the index lookup is unreachable there. -/
def pick_target (entries : List ForecastEntry) : Option ForecastEntry :=
  match entries.find? is_noon with
  | some t => some t
  | none => entries[entries.length / 2]?

/-- The daily dict built from the representative `target` in
`_aggregate_daily` (lines 181-189). -/
def mk_daily (t : ForecastEntry) : DailyEntry :=
  { date := t.datetime
    temp := t.temp
    description := pyCapitalize t.description
    icon_url := t.icon_url
    pop := t.pop }

/-- `_aggregate_daily`: group by calendar date, pick one representative per
group, build the daily dicts in group order, then
`daily.sort(key=lambda x: x["date"])` (a sort on the stored datetime). -/
def aggregate_daily (forecast : List ForecastEntry) : List DailyEntry :=
  ((groupByDate forecast).filterMap fun g => (pick_target g.2).map mk_daily).mergeSort
    fun a b => decide (a.date ≤ b.date)

/-- One temperature chart point, as built by `_build_chart_data`:
a dict with keys `label` (the daily `date`) and `value` (the daily `temp`,
possibly `None`). -/
structure ChartPoint where
  label : Int
  value : Option ℚ
deriving DecidableEq

/-- `_build_chart_data`: project the daily list to chart points. -/
def build_chart_data (daily : List DailyEntry) : List ChartPoint :=
  daily.map fun entry => { label := entry.date, value := entry.temp }

/-- Python `x or 0` on a nullable float: `None` and `0.0` are falsy and give
`0`; any other float is returned unchanged. -/
def pyOrZero (v : Option ℚ) : ℚ :=
  match v with
  | none => 0
  | some x => if x = 0 then 0 else x

/-- The y value rendered by `create_weather_chart` for a chart point:
`entry.get("value") or 0` (`weather_chart.py`, line 14). -/
def chart_point_y (p : ChartPoint) : ℚ := pyOrZero p.value

/-- Python `int()` on a float: truncation toward zero. -/
def pyInt (q : ℚ) : Int := if 0 ≤ q then ⌊q⌋ else ⌈q⌉

/-- One rain point, as built by `_build_rain_probability`:
a dict with keys `date` and `probability`. -/
structure RainPoint where
  date : Int
  probability : Int
deriving DecidableEq

/-- `_build_rain_probability`:
`probability = int((entry.get("pop", 0) or 0) * 100)` per daily entry. -/
def build_rain_probability (daily : List DailyEntry) : List RainPoint :=
  daily.map fun entry => { date := entry.date, probability := pyInt (pyOrZero entry.pop * 100) }

/-- `_ensure_api_key`: `ValueError` when the key is unset (empty string is
falsy) or equals the unconfigured sentinel. -/
def ensure_api_key (apiKey : String) : Except PyError Unit :=
  if apiKey = "" ∨ apiKey = "TU_API_KEY_AQUI" then .error .valueError else .ok ()

/-- The first element of the air-pollution response list, with
`first.get("main", {}).get("aqi")` collapsed into the nullable field `aqi`.
`components` is the pollutant mapping. -/
structure AirItem where
  aqi : Option Int
  components : List (String × ℚ)
deriving DecidableEq

/-- A parsed air-pollution 200-response body: the `"list"` key, when present,
holds a list of items. -/
structure AirBody where
  list : Option (List AirItem)
deriving DecidableEq

/-- Outcome of the one HTTP request `_get_air_quality` can make:
a `requests.RequestException` (connection failure / timeout) or a response
with a status code and a body. -/
inductive AirNet where
  | connError : AirNet
  | response (status : Nat) (body : AirBody) : AirNet
deriving DecidableEq

/-- The air-quality dict returned by `_get_air_quality`: keys `aqi`, `label`,
`value`, `components`. -/
structure AirQuality where
  aqi : Option Int
  label : String
  value : Option Int
  components : List (String × ℚ)
deriving DecidableEq

/-- The fixed label table of `_get_air_quality` (lines 252-258). -/
def air_labels : List (Int × String) :=
  [(1, "Bueno"), (2, "Aceptable"), (3, "Moderado"), (4, "Pobre"), (5, "Muy pobre")]

/-- `labels.get(aqi_value, "Sin datos")`: a `None` index is not a key of the
table, so it also falls back to the default. -/
def air_label (aqi : Option Int) : String :=
  match aqi with
  | none => "Sin datos"
  | some i => (air_labels.lookup i).getD "Sin datos"

/-- The success-path result dict of `_get_air_quality` (lines 260-265). -/
def mk_air_quality (first : AirItem) : AirQuality :=
  { aqi := first.aqi
    label := air_label first.aqi
    value := first.aqi
    components := first.components }

/-- `_get_air_quality`, with the single outbound HTTP request modelled by the
`net` argument and the number of requests actually issued returned alongside
the result.  `data.get("list", [{}])[0]` with the key absent indexes the
default `[{}]`, whose sole element parses to the empty item; with the key
present and empty it raises `IndexError`. -/
def get_air_quality (apiKey : String) (lat lon : Option ℚ) (net : AirNet) :
    Except PyError AirQuality × Nat :=
  if lat = none ∨ lon = none then
    (.ok { aqi := none, label := "Sin datos", value := none, components := [] }, 0)
  else
    match ensure_api_key apiKey with
    | .error e => (.error e, 0)
    | .ok _ =>
      match net with
      | .connError =>
        (.ok { aqi := none, label := "Sin conexión", value := none, components := [] }, 1)
      | .response status body =>
        if status ≠ 200 then
          (.ok { aqi := none, label := "No disponible", value := none, components := [] }, 1)
        else
          match body.list with
          | none => (.ok (mk_air_quality { aqi := none, components := [] }), 1)
          | some [] => (.error .indexError, 1)
          | some (first :: _) => (.ok (mk_air_quality first), 1)

/-- A JSON value, for the raw current-weather response body.  (JSON booleans
are not modelled; no claim depends on them.) -/
inductive Jv where
  | null
  | num (q : ℚ)
  | str (s : String)
  | arr (elems : List Jv)
  | obj (fields : List (String × Jv))

/-- Key lookup in a JSON object.  `json.loads` keeps the last occurrence of a
duplicated key, hence the reverse. -/
def jlookup (fields : List (String × Jv)) (k : String) : Option Jv :=
  fields.reverse.lookup k

/-- Python `o.get(k, d)`: `AttributeError` when `o` is not a dict. -/
def jget (o : Jv) (k : String) (d : Jv) : Except PyError Jv :=
  match o with
  | .obj fields => .ok ((jlookup fields k).getD d)
  | _ => .error .attrError

/-- Python truthiness of a JSON value. -/
def jtruthy : Jv → Bool
  | .null => false
  | .num q => decide (q ≠ 0)
  | .str s => decide (s ≠ "")
  | .arr elems => !elems.isEmpty
  | .obj fields => !fields.isEmpty

/-- Python `x[0]` as used on `weather_list` (line 84): first element of a
list, first character of a string, `KeyError` on a dict (JSON object keys are
strings, so the int key `0` is never present), `TypeError` otherwise. -/
def jindex0 : Jv → Except PyError Jv
  | .arr [] => .error .indexError
  | .arr (x :: _) => .ok x
  | .str s =>
    match s.data with
    | [] => .error .indexError
    | c :: _ => .ok (.str (String.mk [c]))
  | .obj _ => .error .keyError
  | .null => .error .typeError
  | .num _ => .error .typeError

/-- A datetime as produced inside `get_current_weather`: either
`datetime.fromtimestamp(q)` or `datetime.now()`. -/
inductive PyTime where
  | fromUnix (q : ℚ)
  | now
deriving DecidableEq

/-- `datetime.fromtimestamp` on a JSON value: defined on numbers, `TypeError`
otherwise.  (Platform range errors on huge numeric timestamps are not
modelled.) -/
def py_fromtimestamp : Jv → Except PyError PyTime
  | .num q => .ok (.fromUnix q)
  | _ => .error .typeError

/-- Python `str()` rendering used only inside the icon-URL f-string; its exact
text for non-string values is irrelevant to every claim and approximated. -/
def jformat : Jv → String
  | .str s => s
  | .null => "None"
  | .num q => toString q
  | .arr _ => "<arr>"
  | .obj _ => "<obj>"

/-- `_build_icon_url`: empty string for a falsy icon code, else the
OpenWeatherMap image URL. -/
def build_icon_url (icon : Jv) : String :=
  if jtruthy icon then "https://openweathermap.org/img/wn/" ++ jformat icon ++ "@4x.png"
  else ""

/-- Python `x.capitalize()` on a JSON value: defined on strings,
`AttributeError` otherwise (in particular on `None`). -/
def py_capitalize_j : Jv → Except PyError String
  | .str s => .ok (pyCapitalize s)
  | _ => .error .attrError

/-- The conditional `datetime.fromtimestamp(v) if v else datetime.now()` of
line 102. -/
def py_time_or_now (v : Jv) : Except PyError PyTime :=
  if jtruthy v then py_fromtimestamp v else pure PyTime.now

/-- The conditional `datetime.fromtimestamp(v) if v else None` of lines
109-114. -/
def py_time_or_none (v : Jv) : Except PyError (Option PyTime) :=
  if jtruthy v then Except.map some (py_fromtimestamp v) else pure none

/-- The dict returned by `get_current_weather`, with the fields it computes
rather than passes through given their computed types. -/
structure CurrentRecord where
  city : Jv
  country : Jv
  temp : Jv
  temp_min : Jv
  temp_max : Jv
  feels_like : Jv
  description : String
  humidity : Jv
  wind_speed : Jv
  icon_url : String
  timestamp : PyTime
  units : String
  visibility : Jv
  pressure : Jv
  sunrise : Option PyTime
  sunset : Option PyTime
  lat : Jv
  lon : Jv

/-- The `try` block of `get_current_weather` (lines 90-117): the dict literal,
with entries evaluated in source order.  The `dt`/`sunrise`/`sunset`
conditionals test truthiness of the value fetched with default `None`; the
value branch re-fetches with default `0`, which can differ from the tested
value only when the key is absent, and then the value branch is not taken, so
a single fetch with default `null` is faithful. -/
def current_try (city units : String)
    (data weather_info main_info wind_info sys_info coord_info : Jv) :
    Except PyError CurrentRecord := do
  let name ← jget data "name" (.str city)
  let country ← jget sys_info "country" (.str "")
  let temp ← jget main_info "temp" .null
  let temp_min ← jget main_info "temp_min" .null
  let temp_max ← jget main_info "temp_max" .null
  let feels_like ← jget main_info "feels_like" .null
  let descJ ← jget weather_info "description" (.str "")
  let description ← py_capitalize_j descJ
  let humidity ← jget main_info "humidity" .null
  let wind_speed ← jget wind_info "speed" .null
  let iconJ ← jget weather_info "icon" .null
  let dtJ ← jget data "dt" .null
  let timestamp ← py_time_or_now dtJ
  let visibility ← jget data "visibility" .null
  let pressure ← jget main_info "pressure" .null
  let sunriseJ ← jget sys_info "sunrise" .null
  let sunrise ← py_time_or_none sunriseJ
  let sunsetJ ← jget sys_info "sunset" .null
  let sunset ← py_time_or_none sunsetJ
  let lat ← jget coord_info "lat" .null
  let lon ← jget coord_info "lon" .null
  pure { city := name, country, temp, temp_min, temp_max, feels_like, description, humidity,
         wind_speed, icon_url := build_icon_url iconJ, timestamp, units, visibility, pressure,
         sunrise, sunset, lat, lon }

/-- Line 84: `weather_list[0] if weather_list else` the empty dict. -/
def weather_head (weather_list : Jv) : Except PyError Jv :=
  if jtruthy weather_list then jindex0 weather_list else pure (Jv.obj [])

/-- `get_current_weather` from line 81 on: the handling of a status-200
response whose body parsed as JSON.  Lines 83-88 run outside the `try`; the
`except KeyError` handler converts a `KeyError` escaping the dict literal
into `WeatherServiceError("Respuesta incompleta...")`, modelled as
`incompleteResponse`. -/
def get_current_weather_200 (city units : String) (data : Jv) :
    Except PyError CurrentRecord := do
  let weather_list ← jget data "weather" (.arr [])
  let weather_info ← weather_head weather_list
  let main_info ← jget data "main" (.obj [])
  let wind_info ← jget data "wind" (.obj [])
  let sys_info ← jget data "sys" (.obj [])
  let coord_info ← jget data "coord" (.obj [])
  match current_try city units data weather_info main_info wind_info sys_info coord_info with
  | .error .keyError => .error .incompleteResponse
  | r => r

/-- A weather-array element of the expected shape: a JSON object whose
`description` is a string; `wl` holds any further fields (none of them a
later duplicate of `description` or `icon`, since `json.loads` keeps the
last occurrence). -/
def mkWeatherItem (wl : List (String × Jv)) (desc : String) (icon : Jv) : List (String × Jv) :=
  wl ++ [("description", Jv.str desc), ("icon", icon)]

/-- A current-weather 200-response body of the expected shape, used to state
which bodies `get_current_weather` is total on: `weather` is an array of one
object with a string description, `main`/`wind`/`sys`/`coord` are objects
(with arbitrary contents), and `dt` is the value `dtv`. -/
def mkBody (wl : List (String × Jv)) (desc : String) (icon : Jv)
    (mainL windL sysL coordL : List (String × Jv)) (dtv : Jv) : Jv :=
  Jv.obj [("weather", Jv.arr [Jv.obj (mkWeatherItem wl desc icon)]),
          ("main", Jv.obj mainL), ("wind", Jv.obj windL), ("sys", Jv.obj sysL),
          ("coord", Jv.obj coordL), ("dt", dtv)]

/-
Concrete fixtures and proof-level definitions used by the theorems below.
-/

def entH (h : Int) : ForecastEntry :=
  { datetime := h * 3600, temp := some 10, description := "cielo claro", icon_url := "", pop := some 0 }

def ent9am : ForecastEntry :=
  { datetime := 9 * 3600, temp := some 18, description := "lluvia ligera", icon_url := "",
    pop := some 0 }

def entMixedCase : ForecastEntry :=
  { datetime := 12 * 3600, temp := some 20, description := "aB", icon_url := "", pop := some 0 }

/-- Classification of the errors the `try`-block operations can raise: only
`AttributeError` or `TypeError`, never `KeyError`. -/
def TryOk {α : Type} (x : Except PyError α) : Prop :=
  ∀ e, x = Except.error e → e = PyError.attrError ∨ e = PyError.typeError

/-- The first list element satisfying `p`, located by index, is what `find?`
returns. -/
theorem find?_eq_get_of_first {α : Type} (p : α → Bool) :
    ∀ (xs : List α) (k : ℕ) (hk : k < xs.length),
      p (xs.get ⟨k, hk⟩) = true →
      (∀ j (hj : j < k), p (xs.get ⟨j, Nat.lt_trans hj hk⟩) = false) →
      xs.find? p = some (xs.get ⟨k, hk⟩)
  | [], k, hk => by simp at hk
  | x :: xs, 0, hk => fun hp _ => by simpa [List.find?_cons] using hp ▸ rfl
  | x :: xs, k + 1, hk => fun hp hfirst => by
      have h0 : p x = false := hfirst 0 (Nat.succ_pos k)
      have ih := find?_eq_get_of_first p xs k (Nat.lt_of_succ_lt_succ hk) hp
        (fun j hj => hfirst (j + 1) (Nat.succ_lt_succ hj))
      simp [List.find?_cons, h0, ih]

/-- A singleton group always selects its sample. -/
theorem pick_target_single (e : ForecastEntry) : pick_target [e] = some e := by
  unfold pick_target
  cases h : List.find? is_noon [e] with
  | some t =>
    have := List.mem_of_find?_eq_some h
    simp at this
    simp [this]
  | none => simp

/-- A selected representative is a member of its group. -/
theorem pick_target_mem {es : List ForecastEntry} {t : ForecastEntry}
    (h : pick_target es = some t) : t ∈ es := by
  unfold pick_target at h
  cases hf : List.find? is_noon es with
  | some u => rw [hf] at h; cases h; exact List.mem_of_find?_eq_some hf
  | none =>
    rw [hf] at h
    obtain ⟨hlt, heq⟩ := List.getElem?_eq_some.mp h
    exact heq ▸ List.getElem_mem hlt

/-- A nonempty group always yields a representative. -/
theorem pick_target_of_ne_nil {es : List ForecastEntry} (h : es ≠ []) :
    ∃ t, pick_target es = some t := by
  unfold pick_target
  cases hf : List.find? is_noon es with
  | some u => exact ⟨u, rfl⟩
  | none =>
    have hlen : 0 < es.length := List.length_pos.mpr h
    have hlt : es.length / 2 < es.length := Nat.div_lt_self hlen (by decide)
    exact ⟨es.get ⟨es.length / 2, hlt⟩, by simp [List.getElem?_eq_getElem hlt]⟩

/-- C1: the representative of a day-group is the first sample (in group
order) whose hour is 12; with no hour-12 sample it is the sample at index
floor(N/2); a singleton group yields its sample. -/
theorem pick_target_policy :
    (∀ (es : List ForecastEntry) (k : ℕ) (hk : k < es.length),
       is_noon (es.get ⟨k, hk⟩) = true →
       (∀ j (hj : j < k), is_noon (es.get ⟨j, Nat.lt_trans hj hk⟩) = false) →
       pick_target es = some (es.get ⟨k, hk⟩)) ∧
    (∀ es : List ForecastEntry, (∀ e ∈ es, is_noon e = false) →
       pick_target es = es[es.length / 2]?) ∧
    (∀ e : ForecastEntry, pick_target [e] = some e) := by
  refine ⟨?_, ?_, pick_target_single⟩
  · intro es k hk hnoon hfirst
    unfold pick_target
    rw [find?_eq_get_of_first is_noon es k hk hnoon hfirst]
  · intro es h
    unfold pick_target
    rw [List.find?_eq_none.mpr fun x hx => by simp [h x hx]]

theorem pick_target_policy_witness :
    pick_target [entH 9, entH 12] = some (([entH 9, entH 12] : List ForecastEntry).get ⟨1, by decide⟩) ∧
    pick_target [entH 0, entH 3, entH 6] = some (entH 3) ∧
    pick_target [entH 9] = some (entH 9) := by
  refine ⟨pick_target_policy.1 [entH 9, entH 12] 1 (by decide) (by decide) (by decide), ?_, pick_target_policy.2.2 (entH 9)⟩
  have := pick_target_policy.2.1 [entH 0, entH 3, entH 6] (by decide)
  simpa using this

theorem insertGrouped_keys (acc : List (Int × List ForecastEntry)) (k : Int) (e : ForecastEntry) :
    (insertGrouped acc k e).map Prod.fst =
      if k ∈ acc.map Prod.fst then acc.map Prod.fst else acc.map Prod.fst ++ [k] := by
  induction acc with
  | nil => simp [insertGrouped]
  | cons p rest ih =>
    obtain ⟨kk, es⟩ := p
    by_cases hk : kk = k
    · subst hk
      simp [insertGrouped]
    · simp only [insertGrouped, if_neg hk, List.map_cons, ih, List.mem_cons]
      have : ¬ k = kk := fun h => hk h.symm
      by_cases hm : k ∈ rest.map Prod.fst
      · simp [hm, this]
      · simp [hm, this]

theorem insertGrouped_keys_nodup {acc : List (Int × List ForecastEntry)} {k : Int}
    {e : ForecastEntry} (h : (acc.map Prod.fst).Nodup) :
    ((insertGrouped acc k e).map Prod.fst).Nodup := by
  rw [insertGrouped_keys]
  by_cases hm : k ∈ acc.map Prod.fst
  · simpa [hm]
  · simpa [hm, List.nodup_append] using h

theorem insertGrouped_keys_toFinset (acc : List (Int × List ForecastEntry)) (k : Int)
    (e : ForecastEntry) :
    ((insertGrouped acc k e).map Prod.fst).toFinset = insert k (acc.map Prod.fst).toFinset := by
  rw [insertGrouped_keys]
  by_cases hm : k ∈ acc.map Prod.fst
  · simp [hm, Finset.insert_eq_self.mpr (List.mem_toFinset.mpr hm)]
  · ext a
    simp [hm, or_comm]

theorem insertGrouped_groups {acc : List (Int × List ForecastEntry)} {k : Int}
    {e : ForecastEntry}
    (h : ∀ p ∈ acc, p.2 ≠ [] ∧ ∀ x ∈ p.2, dateOf x.datetime = p.1)
    (he : dateOf e.datetime = k) :
    ∀ p ∈ insertGrouped acc k e, p.2 ≠ [] ∧ ∀ x ∈ p.2, dateOf x.datetime = p.1 := by
  induction acc with
  | nil =>
    intro p hp
    simp [insertGrouped] at hp
    subst hp
    simpa using he
  | cons q rest ih =>
    obtain ⟨kk, es⟩ := q
    intro p hp
    by_cases hk : kk = k
    · subst hk
      simp only [insertGrouped, if_true, eq_self_iff_true, List.mem_cons] at hp
      rcases hp with rfl | hp
      · refine ⟨by simp, ?_⟩
        intro x hx
        rcases List.mem_append.mp hx with hx | hx
        · exact (h (kk, es) (by simp)).2 x hx
        · simp at hx
          subst hx
          exact he
      · exact h p (List.mem_cons_of_mem _ hp)
    · simp only [insertGrouped, if_neg hk, List.mem_cons] at hp
      rcases hp with rfl | hp
      · exact h (kk, es) (by simp)
      · exact ih (fun q hq => h q (List.mem_cons_of_mem _ hq)) p hp

theorem insertGrouped_entries {acc : List (Int × List ForecastEntry)} {k : Int}
    {e : ForecastEntry} :
    ∀ p ∈ insertGrouped acc k e, ∀ x ∈ p.2, (∃ q ∈ acc, x ∈ q.2) ∨ x = e := by
  induction acc with
  | nil =>
    intro p hp x hx
    simp [insertGrouped] at hp
    subst hp
    simp at hx
    exact Or.inr hx
  | cons q rest ih =>
    obtain ⟨kk, es⟩ := q
    intro p hp x hx
    by_cases hk : kk = k
    · subst hk
      simp only [insertGrouped, if_true, eq_self_iff_true, List.mem_cons] at hp
      rcases hp with rfl | hp
      · simp only at hx
        rcases List.mem_append.mp hx with hx | hx
        · exact Or.inl ⟨(kk, es), by simp, hx⟩
        · simp at hx
          exact Or.inr hx
      · exact Or.inl ⟨p, List.mem_cons_of_mem _ hp, hx⟩
    · simp only [insertGrouped, if_neg hk, List.mem_cons] at hp
      rcases hp with rfl | hp
      · exact Or.inl ⟨(kk, es), by simp, hx⟩
      · rcases ih p hp x hx with ⟨q, hq, hxq⟩ | hxe
        · exact Or.inl ⟨q, List.mem_cons_of_mem _ hq, hxq⟩
        · exact Or.inr hxe

theorem foldl_keys_nodup :
    ∀ (f : List ForecastEntry) (acc : List (Int × List ForecastEntry)),
      (acc.map Prod.fst).Nodup → ((f.foldl groupStep acc).map Prod.fst).Nodup
  | [], acc => fun h => h
  | e :: f, acc => fun h => by
      simpa [List.foldl_cons] using
        foldl_keys_nodup f (groupStep acc e) (insertGrouped_keys_nodup h)

theorem foldl_keys_toFinset :
    ∀ (f : List ForecastEntry) (acc : List (Int × List ForecastEntry)),
      ((f.foldl groupStep acc).map Prod.fst).toFinset =
        (acc.map Prod.fst).toFinset ∪ (f.map fun e => dateOf e.datetime).toFinset
  | [], acc => by simp
  | e :: f, acc => by
      rw [List.foldl_cons, foldl_keys_toFinset f (groupStep acc e)]
      show ((insertGrouped acc (dateOf e.datetime) e).map Prod.fst).toFinset ∪ _ = _
      rw [insertGrouped_keys_toFinset]
      ext a
      simp only [Finset.mem_union, Finset.mem_insert, List.mem_toFinset, List.map_cons,
        List.toFinset_cons, List.mem_map]
      constructor
      · rintro ((rfl | h) | h)
        · exact Or.inr (Or.inl rfl)
        · exact Or.inl h
        · exact Or.inr (Or.inr h)
      · rintro (h | (rfl | h))
        · exact Or.inl (Or.inr h)
        · exact Or.inl (Or.inl rfl)
        · exact Or.inr h

theorem foldl_groups :
    ∀ (f : List ForecastEntry) (acc : List (Int × List ForecastEntry)),
      (∀ p ∈ acc, p.2 ≠ [] ∧ ∀ x ∈ p.2, dateOf x.datetime = p.1) →
      ∀ p ∈ f.foldl groupStep acc, p.2 ≠ [] ∧ ∀ x ∈ p.2, dateOf x.datetime = p.1
  | [], acc => fun h => h
  | e :: f, acc => fun h => by
      simpa [List.foldl_cons] using
        foldl_groups f (groupStep acc e) (insertGrouped_groups h rfl)

theorem foldl_entries :
    ∀ (f : List ForecastEntry) (acc : List (Int × List ForecastEntry)),
      ∀ p ∈ f.foldl groupStep acc, ∀ x ∈ p.2, (∃ q ∈ acc, x ∈ q.2) ∨ x ∈ f
  | [], acc => fun p hp x hx => Or.inl ⟨p, hp, hx⟩
  | e :: f, acc => fun p hp x hx => by
      rcases foldl_entries f (groupStep acc e) p (by simpa [List.foldl_cons] using hp) x hx with
        ⟨q, hq, hxq⟩ | hxf
      · rcases insertGrouped_entries q hq x hxq with ⟨r, hr, hxr⟩ | hxe
        · exact Or.inl ⟨r, hr, hxr⟩
        · exact Or.inr (by simp [hxe])
      · exact Or.inr (List.mem_cons_of_mem _ hxf)

/-- Every group of `groupByDate` is nonempty and holds exactly the entries of
its calendar date. -/
theorem groupByDate_groups {f : List ForecastEntry} :
    ∀ p ∈ groupByDate f, p.2 ≠ [] ∧ ∀ x ∈ p.2, dateOf x.datetime = p.1 :=
  foldl_groups f [] (by simp)

/-- Every entry stored in a group of `groupByDate f` comes from `f`. -/
theorem groupByDate_entries {f : List ForecastEntry} :
    ∀ p ∈ groupByDate f, ∀ x ∈ p.2, x ∈ f := by
  intro p hp x hx
  rcases foldl_entries f [] p hp x hx with ⟨q, hq, _⟩ | h
  · simp at hq
  · exact h

/-- The group keys are exactly the distinct dates of the input. -/
theorem groupByDate_keys_toFinset {f : List ForecastEntry} :
    ((groupByDate f).map Prod.fst).toFinset = (f.map fun e => dateOf e.datetime).toFinset := by
  simpa using foldl_keys_toFinset f []

theorem groupByDate_keys_nodup {f : List ForecastEntry} :
    ((groupByDate f).map Prod.fst).Nodup :=
  foldl_keys_nodup f [] (by simp)

/-- The dates of the one-per-group daily records are the group keys. -/
theorem filterMap_daily_dates :
    ∀ (gs : List (Int × List ForecastEntry)),
      (∀ p ∈ gs, p.2 ≠ [] ∧ ∀ x ∈ p.2, dateOf x.datetime = p.1) →
      ((gs.filterMap fun g => (pick_target g.2).map mk_daily).map fun d => dateOf d.date) =
        gs.map Prod.fst
  | [] => fun _ => rfl
  | g :: gs => fun h => by
      obtain ⟨hne, hkey⟩ := h g (by simp)
      obtain ⟨t, ht⟩ := pick_target_of_ne_nil hne
      have htm : t ∈ g.2 := pick_target_mem ht
      have ih := filterMap_daily_dates gs fun p hp => h p (List.mem_cons_of_mem _ hp)
      simp only [List.filterMap_cons, ht, Option.map_some', List.map_cons, ih, mk_daily]
      exact congrArg (· :: gs.map Prod.fst) (hkey t htm)

/-- C2: `aggregate_daily` yields one record per distinct calendar date of the
input, its dates are strictly ascending, and the empty input gives the empty
output. -/
theorem aggregate_daily_dates :
    (∀ forecast : List ForecastEntry,
      (aggregate_daily forecast).length
          = (forecast.map fun e => dateOf e.datetime).toFinset.card ∧
      ((aggregate_daily forecast).map fun d => dateOf d.date).toFinset
          = (forecast.map fun e => dateOf e.datetime).toFinset ∧
      ((aggregate_daily forecast).map fun d => dateOf d.date).Pairwise (· < ·)) ∧
    aggregate_daily [] = [] := by
  constructor
  · intro f
    set daily0 := (groupByDate f).filterMap fun g => (pick_target g.2).map mk_daily with hd0
    have hdates0 : (daily0.map fun d => dateOf d.date) = (groupByDate f).map Prod.fst :=
      filterMap_daily_dates _ groupByDate_groups
    have hperm : List.Perm (aggregate_daily f) daily0 := List.mergeSort_perm _ _
    have hpermdates : List.Perm ((aggregate_daily f).map fun d => dateOf d.date)
        ((groupByDate f).map Prod.fst) := hdates0 ▸ hperm.map _
    have hnodup : ((aggregate_daily f).map fun d => dateOf d.date).Nodup :=
      hpermdates.nodup_iff.mpr groupByDate_keys_nodup
    have htofin : ((aggregate_daily f).map fun d => dateOf d.date).toFinset
        = (f.map fun e => dateOf e.datetime).toFinset := by
      rw [← groupByDate_keys_toFinset]
      ext a
      simp [List.mem_toFinset, hpermdates.mem_iff]
    refine ⟨?_, htofin, ?_⟩
    · calc (aggregate_daily f).length
          = ((aggregate_daily f).map fun d => dateOf d.date).length := (List.length_map _ _).symm
        _ = ((aggregate_daily f).map fun d => dateOf d.date).toFinset.card :=
            (List.toFinset_card_of_nodup hnodup).symm
        _ = (f.map fun e => dateOf e.datetime).toFinset.card := by rw [htofin]
    · have hsorted : (aggregate_daily f).Pairwise fun a b => a.date ≤ b.date := by
        have := @List.sorted_mergeSort DailyEntry (fun a b : DailyEntry => decide (a.date ≤ b.date))
          (fun a b c hab hbc => by
            simp only [decide_eq_true_eq] at *
            exact le_trans hab hbc)
          (fun a b => by
            simp only [Bool.or_eq_true, decide_eq_true_eq]
            exact Int.le_total a.date b.date)
          ((groupByDate f).filterMap fun g => (pick_target g.2).map mk_daily)
        exact this.imp (by simp)
      have hne : (aggregate_daily f).Pairwise fun a b => dateOf a.date ≠ dateOf b.date :=
        List.pairwise_map.mp hnodup
      exact List.pairwise_map.mpr ((hsorted.and hne).imp fun h =>
        lt_of_le_of_ne (Int.ediv_le_ediv (by decide) h.1) h.2)
  · simp [aggregate_daily, groupByDate]

/-- `x or 0` on a nullable float agrees with null-coalescing to zero. -/
theorem pyOrZero_eq_getD (v : Option ℚ) : pyOrZero v = v.getD 0 := by
  cases v with
  | none => rfl
  | some x =>
    by_cases hx : x = 0 <;> simp [pyOrZero, hx]

/-- C3: the rendered temperature series is a 1:1, order-preserving projection
of the daily list; the y value is the daily temperature with null replaced by
zero. -/
theorem build_chart_data_spec :
    ∀ daily : List DailyEntry,
      (build_chart_data daily).length = daily.length ∧
      (build_chart_data daily).map chart_point_y = daily.map (fun d => d.temp.getD 0) ∧
      (build_chart_data daily).map ChartPoint.label = daily.map DailyEntry.date := by
  intro daily
  refine ⟨List.length_map _ _, ?_, ?_⟩
  · rw [build_chart_data, List.map_map]
    exact List.map_congr_left fun d _ => pyOrZero_eq_getD d.temp
  · rw [build_chart_data, List.map_map]
    rfl

/-- C4: the rain series is a 1:1, order-preserving projection whose
percentage is the truncation toward zero of `pop * 100`; for `pop` in
`[0, 1]` (or null) the percentage lies in `[0, 100]`; `0.42`, `0.0` and
`1.0` map to `42`, `0` and `100`. -/
theorem build_rain_probability_spec :
    (∀ daily : List DailyEntry,
       (build_rain_probability daily).length = daily.length ∧
       (build_rain_probability daily).map RainPoint.probability
         = daily.map (fun d => pyInt (pyOrZero d.pop * 100)) ∧
       (build_rain_probability daily).map RainPoint.date = daily.map DailyEntry.date) ∧
    (∀ daily : List DailyEntry,
       (∀ d ∈ daily, ∀ q, d.pop = some q → 0 ≤ q ∧ q ≤ 1) →
       ∀ p ∈ build_rain_probability daily, 0 ≤ p.probability ∧ p.probability ≤ 100) ∧
    (build_rain_probability
        [{ date := 0, temp := none, description := "", icon_url := "", pop := some (42 / 100) },
         { date := 0, temp := none, description := "", icon_url := "", pop := some 0 },
         { date := 0, temp := none, description := "", icon_url := "", pop := some 1 }]).map
      RainPoint.probability = [42, 0, 100] := by
  refine ⟨?_, ?_, ?_⟩
  · intro daily
    refine ⟨List.length_map _ _, ?_, ?_⟩
    · rw [build_rain_probability, List.map_map]
      rfl
    · rw [build_rain_probability, List.map_map]
      rfl
  · intro daily h p hp
    rw [build_rain_probability, List.mem_map] at hp
    obtain ⟨d, hd, rfl⟩ := hp
    have hrange : 0 ≤ pyOrZero d.pop ∧ pyOrZero d.pop ≤ 1 := by
      cases hpop : d.pop with
      | none => simp [pyOrZero]
      | some q =>
        obtain ⟨h0, h1⟩ := h d hd q hpop
        by_cases hq : q = 0 <;> simp [pyOrZero, hq, h0, h1]
    obtain ⟨h0, h1⟩ := hrange
    have hnn : (0 : ℚ) ≤ pyOrZero d.pop * 100 := by positivity
    simp only [pyInt, if_pos hnn]
    constructor
    · exact Int.floor_nonneg.mpr hnn
    · calc ⌊pyOrZero d.pop * 100⌋ ≤ ⌊(100 : ℚ)⌋ := Int.floor_mono (by nlinarith)
        _ = 100 := by simp
  · norm_num [build_rain_probability, pyOrZero, pyInt]

theorem build_rain_probability_spec_witness :
    (0 : Int) ≤ (RainPoint.mk 0 0).probability ∧ (RainPoint.mk 0 0).probability ≤ 100 :=
  build_rain_probability_spec.2.1
    [{ date := 0, temp := none, description := "", icon_url := "", pop := some 0 }]
    (by simp)
    (RainPoint.mk 0 0)
    (by simp [build_rain_probability, pyOrZero, pyInt])

/-- Every aggregated daily record is `mk_daily` of some input entry (its
group's representative). -/
theorem aggregate_daily_mem {f : List ForecastEntry} {d : DailyEntry}
    (hd : d ∈ aggregate_daily f) : ∃ e, e ∈ f ∧ d = mk_daily e := by
  have hd0 : d ∈ (groupByDate f).filterMap fun g => (pick_target g.2).map mk_daily :=
    (List.mergeSort_perm _ _).mem_iff.mp hd
  rw [List.mem_filterMap] at hd0
  obtain ⟨g, hg, hmap⟩ := hd0
  rw [Option.map_eq_some'] at hmap
  obtain ⟨t, ht, rfl⟩ := hmap
  exact ⟨t, groupByDate_entries g hg t (pick_target_mem ht), rfl⟩

/-- A one-entry forecast aggregates to its single daily record. -/
theorem aggregate_daily_singleton (e : ForecastEntry) :
    aggregate_daily [e] = [mk_daily e] := by
  rw [aggregate_daily]
  have : groupByDate [e] = [(dateOf e.datetime, [e])] := rfl
  rw [this]
  simp [pick_target_single e, List.mergeSort_singleton]

/-- C5 counterexample: the `date` field of an aggregated record is the
representative's full timestamp, which here carries hour 9 — not a pure
calendar date. -/
theorem aggregate_daily_date_cex :
    (aggregate_daily [ent9am]).map DailyEntry.date = [9 * 3600] ∧
    hourOf (9 * 3600) = 9 ∧ (9 * 3600 : Int) % secondsPerDay ≠ 0 := by
  refine ⟨?_, by decide, by decide⟩
  rw [aggregate_daily_singleton]
  rfl

/-- C5 amended: the `date` field equals the representative input entry's full
timestamp, and its calendar-day part is the representative's calendar date. -/
theorem aggregate_daily_date_amended :
    ∀ (forecast : List ForecastEntry) (d : DailyEntry), d ∈ aggregate_daily forecast →
      ∃ e, e ∈ forecast ∧ d.date = e.datetime ∧ dateOf d.date = dateOf e.datetime := by
  intro forecast d hd
  obtain ⟨e, he, rfl⟩ := aggregate_daily_mem hd
  exact ⟨e, he, rfl, rfl⟩

theorem aggregate_daily_date_amended_witness :
    ∃ e, e ∈ [ent9am] ∧ (mk_daily ent9am).date = e.datetime ∧
      dateOf (mk_daily ent9am).date = dateOf e.datetime :=
  aggregate_daily_date_amended [ent9am] (mk_daily ent9am)
    (by rw [aggregate_daily_singleton]; simp)

/-- C6 counterexample: the description "aB" aggregates to "Ab" — the tail is
lower-cased — while first-character-only capitalization would give "AB". -/
theorem aggregate_daily_description_cex :
    (aggregate_daily [entMixedCase]).map DailyEntry.description = ["Ab"] ∧
    ("Ab" : String) ≠ "AB" := by
  refine ⟨?_, by decide⟩
  rw [aggregate_daily_singleton]
  rfl

/-- C6 amended: an aggregated description is the representative's description
with the first character upper-cased and every remaining character
lower-cased (Python `str.capitalize`). -/
theorem aggregate_daily_description_amended :
    ∀ (forecast : List ForecastEntry) (d : DailyEntry), d ∈ aggregate_daily forecast →
      ∃ e, e ∈ forecast ∧
        d.description.data =
          (match e.description.data with
           | [] => []
           | c :: cs => c.toUpper :: cs.map Char.toLower) := by
  intro forecast d hd
  obtain ⟨e, he, rfl⟩ := aggregate_daily_mem hd
  refine ⟨e, he, ?_⟩
  show (pyCapitalize e.description).data = _
  rw [pyCapitalize]
  cases e.description.data with
  | nil => rfl
  | cons c cs => rfl

theorem aggregate_daily_description_amended_witness :
    ∃ e, e ∈ [entMixedCase] ∧
      (mk_daily entMixedCase).description.data =
        (match e.description.data with
         | [] => []
         | c :: cs => c.toUpper :: cs.map Char.toLower) :=
  aggregate_daily_description_amended [entMixedCase] (mk_daily entMixedCase)
    (by rw [aggregate_daily_singleton]; simp)

/-- C7: with a missing coordinate the air-quality call returns the null-index
"Sin datos" result with empty components, issuing zero network requests. -/
theorem get_air_quality_no_coords :
    ∀ (apiKey : String) (lat lon : Option ℚ) (net : AirNet),
      lat = none ∨ lon = none →
      get_air_quality apiKey lat lon net =
        (.ok { aqi := none, label := "Sin datos", value := none, components := [] }, 0) := by
  intro apiKey lat lon net h
  rw [get_air_quality.eq_def, if_pos h]

theorem get_air_quality_no_coords_witness :
    get_air_quality "clave" none (some 0) AirNet.connError =
      (.ok { aqi := none, label := "Sin datos", value := none, components := [] }, 0) :=
  get_air_quality_no_coords "clave" none (some 0) AirNet.connError (Or.inl rfl)

/-- C8: with coordinates present and a configured key, a connection failure
and a non-200 status both return an ok "no data"-style result (null index,
empty components) instead of raising, and the three failure labels are
pairwise distinct. -/
theorem get_air_quality_failures :
    (∀ (apiKey : String) (la lo : ℚ),
       ensure_api_key apiKey = .ok () →
       get_air_quality apiKey (some la) (some lo) .connError =
         (.ok { aqi := none, label := "Sin conexión", value := none, components := [] }, 1)) ∧
    (∀ (apiKey : String) (la lo : ℚ) (status : Nat) (body : AirBody),
       ensure_api_key apiKey = .ok () → status ≠ 200 →
       get_air_quality apiKey (some la) (some lo) (.response status body) =
         (.ok { aqi := none, label := "No disponible", value := none, components := [] }, 1)) ∧
    (("Sin datos" : String) ≠ "Sin conexión" ∧ ("Sin datos" : String) ≠ "No disponible" ∧
     ("Sin conexión" : String) ≠ "No disponible") := by
  refine ⟨?_, ?_, by decide, by decide, by decide⟩
  · intro apiKey la lo hkey
    rw [get_air_quality.eq_def, if_neg (by simp), hkey]
  · intro apiKey la lo status body hkey hstatus
    rw [get_air_quality.eq_def, if_neg (by simp), hkey]
    simp [hstatus]

theorem get_air_quality_failures_witness :
    get_air_quality "clave" (some 0) (some 0) AirNet.connError =
      (.ok { aqi := none, label := "Sin conexión", value := none, components := [] }, 1) ∧
    get_air_quality "clave" (some 0) (some 0) (AirNet.response 404 ⟨none⟩) =
      (.ok { aqi := none, label := "No disponible", value := none, components := [] }, 1) :=
  ⟨get_air_quality_failures.1 "clave" 0 0 rfl,
   get_air_quality_failures.2.1 "clave" 0 0 404 ⟨none⟩ rfl (by decide)⟩

/-- C9 counterexample: on a successful response with index 1 the summary
label the code produces is "Bueno", not "Good". -/
theorem get_air_quality_labels_cex :
    get_air_quality "clave" (some 0) (some 0)
        (AirNet.response 200 ⟨some [{ aqi := some 1, components := [] }]⟩) =
      (.ok { aqi := some 1, label := "Bueno", value := some 1, components := [] }, 1) ∧
    ("Bueno" : String) ≠ "Good" := by
  exact ⟨rfl, by decide⟩

/-- C9 amended: on a successful response the label is the fixed table lookup
on the first item's index — 1 "Bueno", 2 "Aceptable", 3 "Moderado",
4 "Pobre", 5 "Muy pobre" (the source's Spanish strings, which the spec
renders in English) — and any index outside 1–5, or a null index, yields
"Sin datos". -/
theorem get_air_quality_labels :
    (∀ (apiKey : String) (la lo : ℚ) (first : AirItem) (items : List AirItem),
       ensure_api_key apiKey = .ok () →
       get_air_quality apiKey (some la) (some lo)
           (.response 200 ⟨some (first :: items)⟩) =
         (.ok { aqi := first.aqi, label := air_label first.aqi, value := first.aqi,
                components := first.components }, 1)) ∧
    (air_label (some 1) = "Bueno" ∧ air_label (some 2) = "Aceptable" ∧
     air_label (some 3) = "Moderado" ∧ air_label (some 4) = "Pobre" ∧
     air_label (some 5) = "Muy pobre") ∧
    (∀ i : Int, i < 1 ∨ 5 < i → air_label (some i) = "Sin datos") ∧
    air_label none = "Sin datos" := by
  refine ⟨?_, ⟨rfl, rfl, rfl, rfl, rfl⟩, ?_, rfl⟩
  · intro apiKey la lo first items hkey
    rw [get_air_quality.eq_def, if_neg (by simp), hkey]
    rfl
  · intro i hi
    have h1 : (i == 1) = false := by simp; omega
    have h2 : (i == 2) = false := by simp; omega
    have h3 : (i == 3) = false := by simp; omega
    have h4 : (i == 4) = false := by simp; omega
    have h5 : (i == 5) = false := by simp; omega
    simp [air_label, air_labels, List.lookup, h1, h2, h3, h4, h5]

theorem get_air_quality_labels_witness :
    get_air_quality "clave" (some 0) (some 0)
        (AirNet.response 200 ⟨some [{ aqi := some 3, components := [("pm10", 5)] }]⟩) =
      (.ok { aqi := some 3, label := air_label (some 3), value := some 3,
             components := [("pm10", 5)] }, 1) ∧
    air_label (some 7) = "Sin datos" :=
  ⟨get_air_quality_labels.1 "clave" 0 0 { aqi := some 3, components := [("pm10", 5)] } [] rfl,
   get_air_quality_labels.2.2.1 7 (Or.inr (by decide))⟩

theorem except_error_bind {α β : Type} (e : PyError) (f : α → Except PyError β) :
    (Except.error e >>= f : Except PyError β) = Except.error e := rfl

theorem except_ok_bind {α β : Type} (a : α) (f : α → Except PyError β) :
    (Except.ok a >>= f : Except PyError β) = f a := rfl

theorem tryOk_pure {α : Type} (a : α) : TryOk (pure a : Except PyError α) :=
  fun _ h => Except.noConfusion h

theorem tryOk_bind {α β : Type} {x : Except PyError α} {f : α → Except PyError β}
    (hx : TryOk x) (hf : ∀ a, TryOk (f a)) : TryOk (x >>= f) := by
  cases x with
  | error e =>
    rw [except_error_bind]
    intro e2 h2
    cases h2
    exact hx e rfl
  | ok a => rw [except_ok_bind]; exact hf a

theorem tryOk_jget (o : Jv) (k : String) (d : Jv) : TryOk (jget o k d) := by
  cases o <;> intro e h <;> simp [jget] at h <;> simp [h]

theorem tryOk_capitalize (v : Jv) : TryOk (py_capitalize_j v) := by
  cases v <;> intro e h <;> simp [py_capitalize_j] at h <;> simp [h]

theorem tryOk_fromtimestamp (v : Jv) : TryOk (py_fromtimestamp v) := by
  cases v <;> intro e h <;> simp [py_fromtimestamp] at h <;> simp [h]

theorem tryOk_time_or_now (v : Jv) : TryOk (py_time_or_now v) := by
  rw [py_time_or_now]
  split
  · exact tryOk_fromtimestamp v
  · exact tryOk_pure _

theorem tryOk_time_or_none (v : Jv) : TryOk (py_time_or_none v) := by
  rw [py_time_or_none]
  split
  · cases hv : py_fromtimestamp v with
    | error e =>
      intro e2 h2
      rw [show Except.map some (Except.error e : Except PyError PyTime) = Except.error e from rfl]
        at h2
      cases h2
      exact tryOk_fromtimestamp v e hv
    | ok t => intro e2 h2; cases h2
  · exact tryOk_pure _

/-- The dict literal of `get_current_weather` raises only `AttributeError` or
`TypeError`, whatever the response body holds: no operation inside the `try`
block can raise `KeyError`. -/
theorem current_try_tryOk (city units : String)
    (data weather_info main_info wind_info sys_info coord_info : Jv) :
    TryOk (current_try city units data weather_info main_info wind_info sys_info coord_info) := by
  unfold current_try
  refine tryOk_bind (tryOk_jget _ _ _) fun name => ?_
  refine tryOk_bind (tryOk_jget _ _ _) fun country => ?_
  refine tryOk_bind (tryOk_jget _ _ _) fun temp => ?_
  refine tryOk_bind (tryOk_jget _ _ _) fun temp_min => ?_
  refine tryOk_bind (tryOk_jget _ _ _) fun temp_max => ?_
  refine tryOk_bind (tryOk_jget _ _ _) fun feels_like => ?_
  refine tryOk_bind (tryOk_jget _ _ _) fun descJ => ?_
  refine tryOk_bind (tryOk_capitalize _) fun description => ?_
  refine tryOk_bind (tryOk_jget _ _ _) fun humidity => ?_
  refine tryOk_bind (tryOk_jget _ _ _) fun wind_speed => ?_
  refine tryOk_bind (tryOk_jget _ _ _) fun iconJ => ?_
  refine tryOk_bind (tryOk_jget _ _ _) fun dtJ => ?_
  refine tryOk_bind (tryOk_time_or_now _) fun timestamp => ?_
  refine tryOk_bind (tryOk_jget _ _ _) fun visibility => ?_
  refine tryOk_bind (tryOk_jget _ _ _) fun pressure => ?_
  refine tryOk_bind (tryOk_jget _ _ _) fun sunriseJ => ?_
  refine tryOk_bind (tryOk_time_or_none _) fun sunrise => ?_
  refine tryOk_bind (tryOk_jget _ _ _) fun sunsetJ => ?_
  refine tryOk_bind (tryOk_time_or_none _) fun sunset => ?_
  refine tryOk_bind (tryOk_jget _ _ _) fun lat => ?_
  refine tryOk_bind (tryOk_jget _ _ _) fun lon => ?_
  exact tryOk_pure _

theorem bind_ni {α β : Type} {x : Except PyError α} {f : α → Except PyError β}
    (hx : x ≠ Except.error PyError.incompleteResponse)
    (hf : ∀ a, f a ≠ Except.error PyError.incompleteResponse) :
    (x >>= f) ≠ Except.error PyError.incompleteResponse := by
  cases x with
  | error e =>
    rw [except_error_bind]
    intro h2
    cases h2
    exact hx rfl
  | ok a => rw [except_ok_bind]; exact hf a

theorem jget_ni (o : Jv) (k : String) (d : Jv) :
    jget o k d ≠ Except.error PyError.incompleteResponse := by
  cases o <;> simp [jget]

theorem jindex0_ni (o : Jv) : jindex0 o ≠ Except.error PyError.incompleteResponse := by
  cases o with
  | null => simp [jindex0]
  | num q => simp [jindex0]
  | str s =>
    rw [jindex0]
    rcases s.data with _ | ⟨c, cs⟩ <;> simp
  | arr l => cases l <;> simp [jindex0]
  | obj l => simp [jindex0]

theorem weather_head_ni (o : Jv) :
    weather_head o ≠ Except.error PyError.incompleteResponse := by
  rw [weather_head]
  split
  · exact jindex0_ni o
  · exact fun h => Except.noConfusion h

/-- No 200-response body can make `get_current_weather` raise the
"incomplete response" error: the `except KeyError` handler is unreachable. -/
theorem get_current_weather_200_ni (city units : String) (data : Jv) :
    get_current_weather_200 city units data ≠ Except.error PyError.incompleteResponse := by
  unfold get_current_weather_200
  refine bind_ni (jget_ni _ _ _) fun weather_list => ?_
  refine bind_ni (weather_head_ni _) fun weather_info => ?_
  refine bind_ni (jget_ni _ _ _) fun main_info => ?_
  refine bind_ni (jget_ni _ _ _) fun wind_info => ?_
  refine bind_ni (jget_ni _ _ _) fun sys_info => ?_
  refine bind_ni (jget_ni _ _ _) fun coord_info => ?_
  cases hr : current_try city units data weather_info main_info wind_info sys_info coord_info with
  | ok v => simp
  | error e =>
    rcases current_try_tryOk city units data weather_info main_info wind_info sys_info
      coord_info e hr with rfl | rfl <;> simp

theorem jget_obj (l : List (String × Jv)) (k : String) (d : Jv) :
    jget (Jv.obj l) k d = Except.ok ((jlookup l k).getD d) := rfl

theorem except_isOk_exists {α : Type} {x : Except PyError α} (h : x.isOk = true) :
    ∃ a, x = Except.ok a := by
  cases x with
  | ok a => exact ⟨a, rfl⟩
  | error e => exact Bool.noConfusion h

theorem time_or_now_ok (v : Jv) (hv : v = Jv.null ∨ ∃ q, v = Jv.num q) :
    ∃ t, py_time_or_now v = Except.ok t := by
  rcases hv with rfl | ⟨q, rfl⟩
  · exact ⟨PyTime.now, rfl⟩
  · rw [py_time_or_now]
    by_cases hq : q = 0
    · subst hq
      exact ⟨PyTime.now, rfl⟩
    · exact ⟨PyTime.fromUnix q, by simp [jtruthy, hq, py_fromtimestamp]⟩

theorem time_or_none_ok (v : Jv) (hv : v = Jv.null ∨ ∃ q, v = Jv.num q) :
    ∃ t, py_time_or_none v = Except.ok t := by
  rcases hv with rfl | ⟨q, rfl⟩
  · exact ⟨none, rfl⟩
  · rw [py_time_or_none]
    by_cases hq : q = 0
    · subst hq
      exact ⟨none, rfl⟩
    · exact ⟨some (PyTime.fromUnix q), by simp [jtruthy, hq, py_fromtimestamp, Except.map]⟩

/-- The dict literal succeeds whenever the payload pieces are objects, the
description (when present) is a string, and `dt`/`sunrise`/`sunset` (when
present) are numbers or null. -/
theorem current_try_ok (city units : String)
    (dataL wiL mainL windL sysL coordL : List (String × Jv))
    (hdesc : ∀ v, jlookup wiL "description" = some v → ∃ s, v = Jv.str s)
    (hdt : ∀ v, jlookup dataL "dt" = some v → v = Jv.null ∨ ∃ q, v = Jv.num q)
    (hsr : ∀ v, jlookup sysL "sunrise" = some v → v = Jv.null ∨ ∃ q, v = Jv.num q)
    (hss : ∀ v, jlookup sysL "sunset" = some v → v = Jv.null ∨ ∃ q, v = Jv.num q) :
    ∃ r, current_try city units (Jv.obj dataL) (Jv.obj wiL) (Jv.obj mainL) (Jv.obj windL)
      (Jv.obj sysL) (Jv.obj coordL) = Except.ok r := by
  have hdescv : ∃ s2, py_capitalize_j ((jlookup wiL "description").getD (Jv.str "")) =
      Except.ok s2 := by
    cases hlv : jlookup wiL "description" with
    | none => exact ⟨pyCapitalize "", rfl⟩
    | some v =>
      obtain ⟨s, rfl⟩ := hdesc v hlv
      exact ⟨pyCapitalize s, rfl⟩
  obtain ⟨desc2, hdesc2⟩ := hdescv
  have hdtv : (jlookup dataL "dt").getD Jv.null = Jv.null ∨
      ∃ q, (jlookup dataL "dt").getD Jv.null = Jv.num q := by
    cases hlv : jlookup dataL "dt" with
    | none => exact Or.inl rfl
    | some v => exact hdt v hlv
  obtain ⟨ts, hts⟩ := time_or_now_ok _ hdtv
  have hsrv : (jlookup sysL "sunrise").getD Jv.null = Jv.null ∨
      ∃ q, (jlookup sysL "sunrise").getD Jv.null = Jv.num q := by
    cases hlv : jlookup sysL "sunrise" with
    | none => exact Or.inl rfl
    | some v => exact hsr v hlv
  obtain ⟨sr, hsr2⟩ := time_or_none_ok _ hsrv
  have hssv : (jlookup sysL "sunset").getD Jv.null = Jv.null ∨
      ∃ q, (jlookup sysL "sunset").getD Jv.null = Jv.num q := by
    cases hlv : jlookup sysL "sunset" with
    | none => exact Or.inl rfl
    | some v => exact hss v hlv
  obtain ⟨ss, hss2⟩ := time_or_none_ok _ hssv
  apply except_isOk_exists
  unfold current_try
  simp only [jget_obj, except_ok_bind, hdesc2, hts, hsr2, hss2]
  rfl

/-- Bodies of the expected shape always produce a record. -/
theorem get_current_weather_200_wt (city units desc : String) (icon dtv : Jv)
    (wl mainL windL sysL coordL : List (String × Jv))
    (hdt : dtv = Jv.null ∨ ∃ q, dtv = Jv.num q)
    (hsr : ∀ v, jlookup sysL "sunrise" = some v → v = Jv.null ∨ ∃ q, v = Jv.num q)
    (hss : ∀ v, jlookup sysL "sunset" = some v → v = Jv.null ∨ ∃ q, v = Jv.num q) :
    ∃ r, get_current_weather_200 city units
        (mkBody wl desc icon mainL windL sysL coordL dtv) = Except.ok r := by
  have hdesc : jlookup (mkWeatherItem wl desc icon) "description" = some (Jv.str desc) := by
    rw [mkWeatherItem, jlookup, List.reverse_append]
    rfl
  obtain ⟨r, hr⟩ := current_try_ok city units
    [("weather", Jv.arr [Jv.obj (mkWeatherItem wl desc icon)]),
     ("main", Jv.obj mainL), ("wind", Jv.obj windL), ("sys", Jv.obj sysL),
     ("coord", Jv.obj coordL), ("dt", dtv)]
    (mkWeatherItem wl desc icon) mainL windL sysL coordL
    (fun v hv => by
      rw [hdesc] at hv
      cases hv
      exact ⟨desc, rfl⟩)
    (fun v hv => by
      rw [show jlookup
          [("weather", Jv.arr [Jv.obj (mkWeatherItem wl desc icon)]),
           ("main", Jv.obj mainL), ("wind", Jv.obj windL), ("sys", Jv.obj sysL),
           ("coord", Jv.obj coordL), ("dt", dtv)] "dt" = some dtv from rfl] at hv
      cases hv
      exact hdt)
    hsr hss
  refine ⟨r, ?_⟩
  unfold get_current_weather_200
  rw [show jget (mkBody wl desc icon mainL windL sysL coordL dtv) "weather" (Jv.arr []) =
      Except.ok (Jv.arr [Jv.obj (mkWeatherItem wl desc icon)]) from rfl, except_ok_bind]
  rw [show weather_head (Jv.arr [Jv.obj (mkWeatherItem wl desc icon)]) =
      Except.ok (Jv.obj (mkWeatherItem wl desc icon)) from rfl, except_ok_bind]
  rw [show jget (mkBody wl desc icon mainL windL sysL coordL dtv) "main" (Jv.obj []) =
      Except.ok (Jv.obj mainL) from rfl, except_ok_bind]
  rw [show jget (mkBody wl desc icon mainL windL sysL coordL dtv) "wind" (Jv.obj []) =
      Except.ok (Jv.obj windL) from rfl, except_ok_bind]
  rw [show jget (mkBody wl desc icon mainL windL sysL coordL dtv) "sys" (Jv.obj []) =
      Except.ok (Jv.obj sysL) from rfl, except_ok_bind]
  rw [show jget (mkBody wl desc icon mainL windL sysL coordL dtv) "coord" (Jv.obj []) =
      Except.ok (Jv.obj coordL) from rfl, except_ok_bind]
  rw [show mkBody wl desc icon mainL windL sysL coordL dtv =
      Jv.obj [("weather", Jv.arr [Jv.obj (mkWeatherItem wl desc icon)]),
              ("main", Jv.obj mainL), ("wind", Jv.obj windL), ("sys", Jv.obj sysL),
              ("coord", Jv.obj coordL), ("dt", dtv)] from rfl]
  rw [hr]

/-- C10 counterexample: a 200 JSON body whose weather entry carries
`description: null` makes `get_current_weather` raise (`AttributeError` from
`None.capitalize()`), so not every parsed 200 body yields a record. -/
theorem get_current_weather_200_cex :
    get_current_weather_200 "Lima" "metric"
        (Jv.obj [("weather", Jv.arr [Jv.obj [("description", Jv.null)]])]) =
      Except.error PyError.attrError := rfl

/-- C10 amended: the incomplete-response (`except KeyError`) branch is
unreachable for every 200 JSON body; every body of the expected shape yields
a record without raising; and on the empty body every field takes its
default (null, empty string, the city argument, or the current time). -/
theorem get_current_weather_200_amended :
    (∀ (city units : String) (data : Jv),
       get_current_weather_200 city units data ≠ Except.error PyError.incompleteResponse) ∧
    (∀ (city units desc : String) (icon dtv : Jv)
       (wl mainL windL sysL coordL : List (String × Jv)),
       (dtv = Jv.null ∨ ∃ q, dtv = Jv.num q) →
       (∀ v, jlookup sysL "sunrise" = some v → v = Jv.null ∨ ∃ q, v = Jv.num q) →
       (∀ v, jlookup sysL "sunset" = some v → v = Jv.null ∨ ∃ q, v = Jv.num q) →
       ∃ r, get_current_weather_200 city units
           (mkBody wl desc icon mainL windL sysL coordL dtv) = Except.ok r) ∧
    get_current_weather_200 "Lima" "metric" (Jv.obj []) = Except.ok
      { city := Jv.str "Lima", country := Jv.str "", temp := Jv.null, temp_min := Jv.null,
        temp_max := Jv.null, feels_like := Jv.null, description := "", humidity := Jv.null,
        wind_speed := Jv.null, icon_url := "", timestamp := PyTime.now, units := "metric",
        visibility := Jv.null, pressure := Jv.null, sunrise := none, sunset := none,
        lat := Jv.null, lon := Jv.null } :=
  ⟨get_current_weather_200_ni, get_current_weather_200_wt, rfl⟩

theorem get_current_weather_200_amended_witness :
    ∃ r, get_current_weather_200 "Lima" "metric"
        (mkBody [] "cielo claro" Jv.null [] [] [] [] Jv.null) = Except.ok r :=
  get_current_weather_200_amended.2.1 "Lima" "metric" "cielo claro" Jv.null Jv.null
    [] [] [] [] [] (Or.inl rfl) (fun _ hv => Option.noConfusion hv)
    (fun _ hv => Option.noConfusion hv)
